import Mathlib

/-!
Verification of the battery energy-arbitrage scheduler
(`codigo_tfm_prog_objetos.py`: the `Battery` class and `simulate_battery`).

The PuLP optimization model is embedded shallowly: a linear expression over
the hourly charge/discharge decision variables is a constant plus lists of
`(variable index, coefficient)` pairs, a model is the variable bounds, the
objective and the ordered list of linear constraints, and the external LP
solver is an oracle that maps a model to variable bindings and a status.
Numbers are rationals. Python exceptions are `Except` errors.
-/

namespace EnergyArbitrage

set_option maxRecDepth 40000

/-- Solver termination statuses, as named by `pulp.LpStatus`. -/
inductive LpStatus
  | NotSolved
  | Optimal
  | Infeasible
  | Unbounded
  | Undefined
deriving DecidableEq

/-- The display string `pulp.LpStatus[status]` used in the solve warning. -/
def LpStatus.name : LpStatus → String
  | .NotSolved => "Not Solved"
  | .Optimal => "Optimal"
  | .Infeasible => "Infeasible"
  | .Unbounded => "Unbounded"
  | .Undefined => "Undefined"

/-- A `pulp.LpAffineExpression` over the decision variables: a constant plus
`coefficient * charge[i]` terms plus `coefficient * discharge[i]` terms. -/
structure AffExpr where
  const : ℚ
  chargeCoeffs : List (Nat × ℚ)
  dischargeCoeffs : List (Nat × ℚ)
deriving DecidableEq

/-- Value of an affine expression under an assignment `c`/`d` of the
charge/discharge decision variables. -/
def AffExpr.eval (e : AffExpr) (c d : Nat → ℚ) : ℚ :=
  e.const + (e.chargeCoeffs.map (fun p => p.2 * c p.1)).sum
    + (e.dischargeCoeffs.map (fun p => p.2 * d p.1)).sum

/-- A linear inequality constraint added to the model with `model +=`. -/
inductive LinConstraint
  | ge (e : AffExpr) (bound : ℚ)
  | le (e : AffExpr) (bound : ℚ)
deriving DecidableEq

/-- Satisfaction of one constraint by an assignment. -/
def LinConstraint.sat (c d : Nat → ℚ) : LinConstraint → Prop
  | .ge e bound => bound ≤ e.eval c d
  | .le e bound => e.eval c d ≤ bound

instance (c d : Nat → ℚ) (con : LinConstraint) : Decidable (con.sat c d) := by
  cases con with
  | ge e bound => exact inferInstanceAs (Decidable (bound ≤ e.eval c d))
  | le e bound => exact inferInstanceAs (Decidable (e.eval c d ≤ bound))

/-- The optimization sense of the `pulp.LpProblem` (`"Energy arbitrage"` is
created with `pulp.LpMaximize`). -/
inductive LpSense
  | Maximize
  | Minimize
deriving DecidableEq

/-- The `pulp.LpProblem` together with the declared decision variables: the
horizon, the variable bounds fixed at variable creation (`lowBound=0`,
`upBound=max_*_power_capacity`), the objective and the constraint list. -/
structure LpProblem where
  time_horizon : Nat
  max_charge_power_capacity : ℚ
  max_discharge_power_capacity : ℚ
  sense : LpSense
  objective : AffExpr
  constraints : List LinConstraint
deriving DecidableEq

/-- An assignment is feasible for the problem when it respects the variable
bounds declared at variable creation and satisfies every attached
constraint. -/
def LpProblem.feasibleFor (p : LpProblem) (c d : Nat → ℚ) : Prop :=
  (∀ i < p.time_horizon,
    0 ≤ c i ∧ c i ≤ p.max_charge_power_capacity ∧
    0 ≤ d i ∧ d i ≤ p.max_discharge_power_capacity)
  ∧ ∀ con ∈ p.constraints, con.sat c d

/-- The `Battery` object: the LP problem plus the mutable per-variable
solver bindings (`LpVariable.varValue`, `None` before a solve) and the
model status. -/
structure Battery where
  prob : LpProblem
  chargeVal : Nat → Option ℚ
  dischargeVal : Nat → Option ℚ
  status : LpStatus

/-- `Battery.__init__(time_horizon, max_discharge_power_capacity,
max_charge_power_capacity)`: allocate the bounded decision variables and an
empty maximization model. -/
def Battery.init (time_horizon : Nat)
    (max_discharge_power_capacity max_charge_power_capacity : ℚ) : Battery :=
  { prob :=
      { time_horizon := time_horizon
        max_charge_power_capacity := max_charge_power_capacity
        max_discharge_power_capacity := max_discharge_power_capacity
        sense := .Maximize
        objective := ⟨0, [], []⟩
        constraints := [] }
    chargeVal := fun _ => none
    dischargeVal := fun _ => none
    status := .NotSolved }

/-- Feasibility for the battery's current model. -/
def Battery.feasible (b : Battery) (c d : Nat → ℚ) : Prop :=
  b.prob.feasibleFor c d

instance (p : LpProblem) (c d : Nat → ℚ) : Decidable (p.feasibleFor c d) := by
  unfold LpProblem.feasibleFor
  infer_instance

instance (b : Battery) (c d : Nat → ℚ) : Decidable (b.feasible c d) := by
  unfold Battery.feasible
  infer_instance

/-- The message of the `AssertionError` raised by `set_objective` on a
price-series length mismatch. -/
def inputShapeMsg : String := "Error: need one price for each hour in time horizon"

/-- The objective expression attached by `set_objective`:
`Σ_i (-prices[i])*charge[i] + Σ_i prices[i]*discharge[i]`. -/
def mkObjective (prices : List ℚ) (time_horizon : Nat) : AffExpr :=
  ⟨0, (List.range time_horizon).map (fun i => (i, -1 * prices.getD i 0)),
      (List.range time_horizon).map (fun i => (i, prices.getD i 0))⟩

/-- `Battery.set_objective(prices)`: assert `len(prices) == time_horizon`
(re-raised as an `AssertionError` — the spec's `InputShapeError` — before the
model is touched and before any solve), then attach the profit objective,
replacing any previously set objective. -/
def Battery.set_objective (b : Battery) (prices : List ℚ) : Except String Battery :=
  if prices.length = b.prob.time_horizon then
    .ok { b with prob := { b.prob with objective := mkObjective prices b.prob.time_horizon } }
  else
    .error inputShapeMsg

/-- `model += constraint`: append one constraint to the model. -/
def Battery.addConstraint (b : Battery) (con : LinConstraint) : Battery :=
  { b with prob := { b.prob with constraints := b.prob.constraints ++ [con] } }

/-- The cumulative state-of-energy expression through `hour_of_sim` hours:
`initial_level + Σ_{i<hour_of_sim} efficiency*charge[i]
              - Σ_{i<hour_of_sim} discharge_efficiency*discharge[i]`. -/
def storageExpr (efficiency discharge_efficiency initial_level : ℚ)
    (hour_of_sim : Nat) : AffExpr :=
  ⟨initial_level,
    (List.range hour_of_sim).map (fun i => (i, efficiency)),
    (List.range hour_of_sim).map (fun i => (i, -discharge_efficiency))⟩

/-- The lower-bound storage constraints added by the first loop of
`add_storage_constraints`, for `hour_of_sim` in `range(1, time_horizon+1)`. -/
def storageLowerCons (efficiency min_capacity discharge_efficiency initial_level : ℚ)
    (time_horizon : Nat) : List LinConstraint :=
  (List.range time_horizon).map (fun j =>
    .ge (storageExpr efficiency discharge_efficiency initial_level (j + 1)) min_capacity)

/-- The upper-bound storage constraints added by the second loop of
`add_storage_constraints`. -/
def storageUpperCons (efficiency discharge_energy_capacity discharge_efficiency
    initial_level : ℚ) (time_horizon : Nat) : List LinConstraint :=
  (List.range time_horizon).map (fun j =>
    .le (storageExpr efficiency discharge_efficiency initial_level (j + 1))
      discharge_energy_capacity)

/-- `Battery.add_storage_constraints(efficiency, min_capacity,
discharge_energy_capacity, discharge_efficiency, initial_level)`: two loops
over `hour_of_sim in range(1, time_horizon+1)`, each appending one
constraint per prefix length. -/
def Battery.add_storage_constraints (b : Battery)
    (efficiency min_capacity discharge_energy_capacity discharge_efficiency
     initial_level : ℚ) : Battery :=
  let b1 := (List.range b.prob.time_horizon).foldl
    (fun acc j => acc.addConstraint
      (.ge (storageExpr efficiency discharge_efficiency initial_level (j + 1))
        min_capacity)) b
  (List.range b1.prob.time_horizon).foldl
    (fun acc j => acc.addConstraint
      (.le (storageExpr efficiency discharge_efficiency initial_level (j + 1))
        discharge_energy_capacity)) b1

/-- The throughput expression `lpSum(discharge[i] for i in range(time_horizon))`. -/
def throughputExpr (time_horizon : Nat) : AffExpr :=
  ⟨0, [], (List.range time_horizon).map (fun i => (i, 1))⟩

/-- `Battery.add_throughput_constraints(max_daily_discharged_throughput)`:
one constraint `Σ_i discharge[i] ≤ max_daily_discharged_throughput`. -/
def Battery.add_throughput_constraints (b : Battery)
    (max_daily_discharged_throughput : ℚ) : Battery :=
  b.addConstraint (.le (throughputExpr b.prob.time_horizon)
    max_daily_discharged_throughput)

/-- The external LP capability (`self.model.solve()`): given the problem it
binds every variable to an optional value and reports a status. -/
structure Solver where
  run : LpProblem → (Nat → Option ℚ) × (Nat → Option ℚ) × LpStatus

/-- A solver honours the LP contract when an `Optimal` report means every
declared variable is bound and the bound values are feasible. -/
def Solver.Sound (s : Solver) : Prop :=
  ∀ p : LpProblem, (s.run p).2.2 = .Optimal →
    (∀ i < p.time_horizon, ((s.run p).1 i).isSome ∧ ((s.run p).2.1 i).isSome)
    ∧ p.feasibleFor (fun i => ((s.run p).1 i).getD 0)
        (fun i => ((s.run p).2.1 i).getD 0)

/-- `Battery.solve_model()`: invoke the solver, store the bindings and the
status, and return the printed diagnostics — a single warning line when the
status is not `Optimal`, nothing otherwise. It raises in neither case. -/
def Battery.solve_model (b : Battery) (s : Solver) : Battery × List String :=
  let r := s.run b.prob
  (⟨b.prob, r.1, r.2.1, r.2.2⟩,
    if r.2.2 = .Optimal then [] else ["Warning: " ++ r.2.2.name])

/-- `Battery.collect_output()`: read `varValue` of `charge['c_t_i']` and
`discharge['d_t_i']` for `i in range(0, 24)` — the bound `24` is literal in
the source. The dictionaries hold keys `0..time_horizon-1` only, so when
`time_horizon < 24` the lookup raises a `KeyError`; otherwise the 24 looked
up values (possibly `None`) are returned without any solved-state check. -/
def Battery.collect_output (b : Battery) :
    Except String (List (Option ℚ) × List (Option ℚ)) :=
  if 24 ≤ b.prob.time_horizon then
    .ok ((List.range 24).map b.chargeVal, (List.range 24).map b.dischargeVal)
  else
    .error "KeyError"

/-- `np.cumsum`: running partial sums, `cumsum xs = [xs₀, xs₀+xs₁, …]`. -/
def cumsum (xs : List ℚ) : List ℚ :=
  (xs.scanl (· + ·) 0).drop 1

/-- Arithmetic on a numpy array built from `varValue`s: any `None` entry
makes the elementwise arithmetic (and the `sum` builtin) raise a
`TypeError`; otherwise the numeric values are used. -/
def numVals (xs : List (Option ℚ)) : Except String (List ℚ) :=
  xs.mapM (fun x => match x with
    | some v => .ok v
    | none => .error "TypeError")

/-- The mutable state of `simulate_battery`'s loop: the (single, shared)
`Battery` object, the running `initial_level` and the four accumulated
output arrays. -/
structure SimState where
  battery : Battery
  initial_level : ℚ
  all_hourly_charges : List ℚ
  all_hourly_discharges : List ℚ
  all_hourly_state_of_energy : List ℚ
  all_daily_discharge_throughput : List ℚ

/-- The state at the top of the loop: empty outputs, the caller's seed
level, and the `Battery` instantiated once, before the loop. -/
def initState (time_horizon : Nat)
    (max_discharge_power_capacity max_charge_power_capacity initial_level : ℚ) :
    SimState :=
  { battery := Battery.init time_horizon max_discharge_power_capacity
      max_charge_power_capacity
    initial_level := initial_level
    all_hourly_charges := []
    all_hourly_discharges := []
    all_hourly_state_of_energy := []
    all_daily_discharge_throughput := [] }

/-- One iteration of the `for day_count in ...` loop of `simulate_battery`:
slice this day's prices (`price_data.loc[24*day_count : 24*day_count +
time_horizon - 1]`, label-inclusive), set the objective, add the storage
constraints from the *current* `initial_level`, add the throughput
constraint, solve, collect the output, derive the state-of-energy
trajectory `initial_level + cumsum(charge*efficiency -
discharge*discharge_efficiency)`, append the outputs and finally overwrite
`initial_level` with the trajectory's last element. -/
def simDay (s : Solver) (price_data : List ℚ)
    (discharge_energy_capacity efficiency discharge_efficiency
     max_daily_discharged_throughput min_capacity : ℚ)
    (st : SimState) (day_count : Nat) : Except String SimState := do
  let prices := (price_data.drop (24 * day_count)).take st.battery.prob.time_horizon
  let battery1 ← st.battery.set_objective prices
  let battery2 := battery1.add_storage_constraints efficiency min_capacity
    discharge_energy_capacity discharge_efficiency st.initial_level
  let battery3 := battery2.add_throughput_constraints max_daily_discharged_throughput
  let battery4 := (battery3.solve_model s).1
  let out ← battery4.collect_output
  let hourly_discharges ← numVals out.2
  let daily_discharge_throughput := hourly_discharges.sum
  let hourly_charges ← numVals out.1
  let net_hourly_activity := List.zipWith
    (fun cv dv => cv * efficiency - dv * discharge_efficiency)
    hourly_charges hourly_discharges
  let state_of_energy_from_t2 :=
    (cumsum net_hourly_activity).map (fun x => st.initial_level + x)
  .ok { battery := battery4
        initial_level := state_of_energy_from_t2.getLastD 0
        all_hourly_charges := st.all_hourly_charges ++ hourly_charges
        all_hourly_discharges := st.all_hourly_discharges ++ hourly_discharges
        all_hourly_state_of_energy :=
          st.all_hourly_state_of_energy ++ state_of_energy_from_t2
        all_daily_discharge_throughput :=
          st.all_daily_discharge_throughput ++ [daily_discharge_throughput] }

/-- The `simulate_battery` loop run for `num_days` periods from the initial
state. The source hardcodes `for day_count in range(1)` next to the comment
"Set to sim length" (its own docstring and callers describe a year-long,
365-period simulation); `num_days` is that loop bound. -/
def simLoop (s : Solver) (initial_level : ℚ) (price_data : List ℚ)
    (max_discharge_power_capacity max_charge_power_capacity
     discharge_energy_capacity efficiency discharge_efficiency
     max_daily_discharged_throughput : ℚ) (time_horizon : Nat)
    (min_capacity : ℚ) (num_days : Nat) : Except String SimState :=
  (List.range num_days).foldlM
    (simDay s price_data discharge_energy_capacity efficiency
      discharge_efficiency max_daily_discharged_throughput min_capacity)
    (initState time_horizon max_discharge_power_capacity
      max_charge_power_capacity initial_level)

/-- `simulate_battery` with the loop bound exposed: returns the four
accumulated output arrays. `start_day` (a pandas `Timestamp` in the source)
is accepted but never read, so its type is arbitrary. -/
def simulate_battery_days {T : Type} (num_days : Nat) (s : Solver)
    (initial_level : ℚ) (price_data : List ℚ)
    (max_discharge_power_capacity max_charge_power_capacity
     discharge_energy_capacity efficiency discharge_efficiency
     max_daily_discharged_throughput : ℚ) (time_horizon : Nat)
    (start_day : T) (min_capacity : ℚ) :
    Except String (List ℚ × List ℚ × List ℚ × List ℚ) :=
  (simLoop s initial_level price_data max_discharge_power_capacity
      max_charge_power_capacity discharge_energy_capacity efficiency
      discharge_efficiency max_daily_discharged_throughput time_horizon
      min_capacity num_days).map
    (fun st => (st.all_hourly_charges, st.all_hourly_discharges,
      st.all_hourly_state_of_energy, st.all_daily_discharge_throughput))

/-- `simulate_battery(initial_level, price_data, …, start_day,
min_capacity)` exactly as committed: the loop bound is the literal
`range(1)`. -/
def simulate_battery {T : Type} (s : Solver) (initial_level : ℚ)
    (price_data : List ℚ)
    (max_discharge_power_capacity max_charge_power_capacity
     discharge_energy_capacity efficiency discharge_efficiency
     max_daily_discharged_throughput : ℚ) (time_horizon : Nat)
    (start_day : T) (min_capacity : ℚ) :
    Except String (List ℚ × List ℚ × List ℚ × List ℚ) :=
  simulate_battery_days 1 s initial_level price_data
    max_discharge_power_capacity max_charge_power_capacity
    discharge_energy_capacity efficiency discharge_efficiency
    max_daily_discharged_throughput time_horizon start_day min_capacity

/-- Hourly day-ahead prices for a demonstration day whose only non-zero
prices are negative prices in the last two hours (an incentive to end the
day fully charged). -/
def day1Prices : List ℚ :=
  [0, 0, 0, 0, 0, 0, 0, 0, 0, 0, 0, 0, 0, 0, 0, 0, 0, 0, 0, 0, 0, 0, -1, -1]

/-- Hourly prices for a demonstration day whose only non-zero price is a
high price in hour 0 (an incentive to discharge immediately). -/
def day2Prices : List ℚ :=
  [50, 0, 0, 0, 0, 0, 0, 0, 0, 0, 0, 0, 0, 0, 0, 0, 0, 0, 0, 0, 0, 0, 0, 0]

/-- A two-day price table: `day1Prices` then `day2Prices`. -/
def twoDayPrices : List ℚ := day1Prices ++ day2Prices

/-- A deterministic solver for the three models arising in the
demonstration runs (horizon 24, power caps 5, capacity `[0, 10]`,
efficiencies 1, throughput cap 100). It keys on the model it is given:
98 constraints can only be the second-period model of the shared-battery
two-day run (it returns the all-zero optimum); otherwise a leading
discharge price of 50 identifies a `day2Prices` model (it returns the
discharge-5-at-hour-0 optimum); otherwise the model is a `day1Prices`
model (it returns the charge-5-in-hours-22-and-23 optimum). Optimality of
each answer for its model is proved below. -/
def demoSolver : Solver :=
  ⟨fun p =>
    if p.constraints.length = 98 then
      (fun _ => some 0, fun _ => some 0, .Optimal)
    else if (p.objective.dischargeCoeffs.headD (0, 0)).2 = 50 then
      (fun _ => some 0, fun i => if i = 0 then some 5 else some 0, .Optimal)
    else
      (fun i => if i = 22 ∨ i = 23 then some 5 else some 0,
        fun _ => some 0, .Optimal)⟩

/-- The loop state after one period of the two-day demonstration run
(seed level 0, shared battery). -/
def demoSt1 : SimState :=
  match simLoop demoSolver 0 twoDayPrices 5 5 10 1 1 100 24 0 1 with
  | .ok st => st
  | .error _ => initState 24 5 5 0

/-- The loop state after both periods of the two-day demonstration run. -/
def demoSt2 : SimState :=
  match simLoop demoSolver 0 twoDayPrices 5 5 10 1 1 100 24 0 2 with
  | .ok st => st
  | .error _ => initState 24 5 5 0

/-- The loop state after the single period of a fresh one-period run fed
`day2Prices` and seeded with the first run's period-1 final level `10`. -/
def demoStB : SimState :=
  match simLoop demoSolver 10 day2Prices 5 5 10 1 1 100 24 0 1 with
  | .ok st => st
  | .error _ => initState 24 5 5 10

/-- A solver that always reports `Infeasible` while binding every variable
to `0` — within the external LP capability's interface, and vacuously
sound since it never reports `Optimal`. -/
def warnSolver : Solver :=
  ⟨fun _ => (fun _ => some 0, fun _ => some 0, .Infeasible)⟩

/-- The battery obtained from a fresh two-hour model by attaching the
objective for the price series `[3, 4]`. -/
def demoObjBat : Battery :=
  match (Battery.init 2 5 5).set_objective [3, 4] with
  | .ok b => b
  | .error _ => Battery.init 2 5 5

instance {ε α : Type} [DecidableEq ε] [DecidableEq α] : DecidableEq (Except ε α) :=
  fun a b =>
    match a, b with
    | .error e, .error f =>
        match decEq e f with
        | isTrue h => isTrue (by rw [h])
        | isFalse h => isFalse (fun hh => h (by injection hh))
    | .error _, .ok _ => isFalse (fun hh => Except.noConfusion hh)
    | .ok _, .error _ => isFalse (fun hh => Except.noConfusion hh)
    | .ok x, .ok y =>
        match decEq x y with
        | isTrue h => isTrue (by rw [h])
        | isFalse h => isFalse (fun hh => h (by injection hh))

/-! ### Helper lemmas -/

/-- Sum of a function mapped over `List.range` as a `Finset` sum. -/
theorem listRangeSum (f : Nat → ℚ) (k : Nat) :
    ((List.range k).map f).sum = ∑ i in Finset.range k, f i := by
  induction k with
  | zero => simp
  | succ n ih =>
      rw [List.range_succ, List.map_append, List.sum_append, Finset.sum_range_succ, ih]
      simp

/-- Value of the cumulative storage expression: the initial level plus the
prefix sum of the net hourly deltas. -/
theorem eval_storageExpr (efficiency discharge_efficiency initial_level : ℚ)
    (k : Nat) (c d : Nat → ℚ) :
    (storageExpr efficiency discharge_efficiency initial_level k).eval c d
      = initial_level
        + ∑ i in Finset.range k, (c i * efficiency - d i * discharge_efficiency) := by
  unfold storageExpr AffExpr.eval
  simp only [List.map_map, Function.comp_def]
  rw [listRangeSum, listRangeSum, add_assoc, ← Finset.sum_add_distrib]
  congr 1
  exact Finset.sum_congr rfl (fun i _ => by ring)

/-- Value of the objective expression attached by `set_objective`. -/
theorem eval_mkObjective (prices : List ℚ) (time_horizon : Nat) (c d : Nat → ℚ) :
    (mkObjective prices time_horizon).eval c d
      = ∑ i in Finset.range time_horizon, prices.getD i 0 * (d i - c i) := by
  unfold mkObjective AffExpr.eval
  simp only [List.map_map, Function.comp_def]
  rw [listRangeSum, listRangeSum, zero_add, ← Finset.sum_add_distrib]
  exact Finset.sum_congr rfl (fun i _ => by ring)

/-- A fold that appends one constraint per list element appends the mapped
list to the model's constraints and changes nothing else. -/
theorem foldl_addConstraint {α : Type} (f : α → LinConstraint) (l : List α)
    (b : Battery) :
    (l.foldl (fun acc x => acc.addConstraint (f x)) b)
      = { b with prob := { b.prob with
          constraints := b.prob.constraints ++ l.map f } } := by
  induction l generalizing b with
  | nil => simp
  | cons x xs ih =>
      rw [List.foldl_cons, ih]
      simp [Battery.addConstraint]

/-- `add_storage_constraints` appends exactly the lower-bound prefix
constraints followed by the upper-bound prefix constraints. -/
theorem add_storage_constraints_eq (b : Battery)
    (efficiency min_capacity discharge_energy_capacity discharge_efficiency
     initial_level : ℚ) :
    b.add_storage_constraints efficiency min_capacity discharge_energy_capacity
        discharge_efficiency initial_level
      = { b with prob := { b.prob with constraints :=
          (b.prob.constraints
            ++ storageLowerCons efficiency min_capacity discharge_efficiency
                initial_level b.prob.time_horizon
            ++ storageUpperCons efficiency discharge_energy_capacity
                discharge_efficiency initial_level b.prob.time_horizon) } } := by
  unfold Battery.add_storage_constraints
  rw [foldl_addConstraint, foldl_addConstraint]
  simp [storageLowerCons, storageUpperCons, List.append_assoc]

/-- Inversion for a successful `Except` bind. -/
theorem except_bind_ok {ε α β : Type} (a : Except ε α) (f : α → Except ε β)
    (r : β) (h : a >>= f = .ok r) : ∃ x, a = .ok x ∧ f x = .ok r := by
  cases a with
  | ok x => exact ⟨x, rfl, h⟩
  | error e => exact absurd h (by simp [Bind.bind, Except.bind])

/-- A successful `numVals` returns one value per entry. -/
theorem numVals_ok_length (xs : List (Option ℚ)) (ys : List ℚ)
    (h : numVals xs = .ok ys) : ys.length = xs.length := by
  induction xs generalizing ys with
  | nil =>
      unfold numVals at h
      rw [List.mapM_nil] at h
      cases h
      rfl
  | cons x xs ih =>
      unfold numVals at h
      rw [List.mapM_cons] at h
      obtain ⟨v, hv, h⟩ := except_bind_ok _ _ _ h
      obtain ⟨vs, hvs, h⟩ := except_bind_ok _ _ _ h
      cases h
      simp only [List.length_cons]
      rw [ih vs hvs]

/-- A successful `collect_output` returns the first 24 charge and discharge
bindings, and can only succeed on a horizon of at least 24 hours. -/
theorem collect_output_ok (b : Battery)
    (out : List (Option ℚ) × List (Option ℚ)) (h : b.collect_output = .ok out) :
    out.1 = (List.range 24).map b.chargeVal
    ∧ out.2 = (List.range 24).map b.dischargeVal
    ∧ 24 ≤ b.prob.time_horizon := by
  unfold Battery.collect_output at h
  split at h
  · cases h
    exact ⟨rfl, rfl, by assumption⟩
  · cases h

/-- `cumsum` preserves length. -/
theorem cumsum_length (xs : List ℚ) : (cumsum xs).length = xs.length := by
  unfold cumsum
  rw [List.length_drop, List.length_scanl]
  simp

/-- Structural description of one successful loop iteration of
`simulate_battery`: the hourly outputs grow by exactly the 24 collected
values, the appended state-of-energy block is the running `initial_level`
plus the cumulative sum of the net hourly deltas, the period throughput is
the sum of the collected discharges, and `initial_level` is overwritten
(its only mutation in the iteration) with the appended trajectory's last
element. -/
theorem simDay_ok_spec (s : Solver) (price_data : List ℚ)
    (discharge_energy_capacity efficiency discharge_efficiency
     max_daily_discharged_throughput min_capacity : ℚ)
    (st st' : SimState) (day_count : Nat)
    (h : simDay s price_data discharge_energy_capacity efficiency
      discharge_efficiency max_daily_discharged_throughput min_capacity
      st day_count = .ok st') :
    ∃ hc hd : List ℚ,
      hc.length = 24 ∧ hd.length = 24 ∧
      st'.all_hourly_charges = st.all_hourly_charges ++ hc ∧
      st'.all_hourly_discharges = st.all_hourly_discharges ++ hd ∧
      st'.all_hourly_state_of_energy = st.all_hourly_state_of_energy ++
        (cumsum (List.zipWith
          (fun cv dv => cv * efficiency - dv * discharge_efficiency) hc hd)).map
          (fun x => st.initial_level + x) ∧
      st'.all_daily_discharge_throughput =
        st.all_daily_discharge_throughput ++ [hd.sum] ∧
      st'.initial_level =
        ((cumsum (List.zipWith
          (fun cv dv => cv * efficiency - dv * discharge_efficiency) hc hd)).map
          (fun x => st.initial_level + x)).getLastD 0 := by
  unfold simDay at h
  obtain ⟨b1, hb1, h⟩ := except_bind_ok _ _ _ h
  obtain ⟨out, hout, h⟩ := except_bind_ok _ _ _ h
  obtain ⟨hd, hhd, h⟩ := except_bind_ok _ _ _ h
  obtain ⟨hc, hhc, h⟩ := except_bind_ok _ _ _ h
  cases h
  obtain ⟨hout1, hout2, _⟩ := collect_output_ok _ _ hout
  refine ⟨hc, hd, ?_, ?_, rfl, rfl, rfl, rfl, rfl⟩
  · rw [numVals_ok_length _ _ hhc, hout1]
    simp
  · rw [numVals_ok_length _ _ hhd, hout2]
    simp

/-- A single-period `simLoop` run is exactly one loop iteration from the
initial state. -/
theorem simLoop_one (s : Solver) (initial_level : ℚ) (price_data : List ℚ)
    (max_discharge_power_capacity max_charge_power_capacity
     discharge_energy_capacity efficiency discharge_efficiency
     max_daily_discharged_throughput : ℚ) (time_horizon : Nat)
    (min_capacity : ℚ) :
    simLoop s initial_level price_data max_discharge_power_capacity
        max_charge_power_capacity discharge_energy_capacity efficiency
        discharge_efficiency max_daily_discharged_throughput time_horizon
        min_capacity 1
      = simDay s price_data discharge_energy_capacity efficiency
          discharge_efficiency max_daily_discharged_throughput min_capacity
          (initState time_horizon max_discharge_power_capacity
            max_charge_power_capacity initial_level) 0 := by
  unfold simLoop
  rw [show List.range 1 = [0] from rfl, List.foldlM_cons]
  simp

/-! ### Claim theorems -/

/-- C1. `add_storage_constraints(chargeEff, minCapacity, maxCapacity,
dischargeEff, initialLevel)` adds to the model exactly one pair of linear
constraints per prefix length `k` from 1 to the horizon, and those added
constraints are satisfied by an assignment of the decision variables
exactly when `minCapacity ≤ initialLevel +
Σ_{i<k}(charge[i]·chargeEff − discharge[i]·dischargeEff) ≤ maxCapacity`
holds at the end of every hour `k`, not only the last. -/
theorem c1_storage_prefix_bounds (b : Battery)
    (efficiency min_capacity discharge_energy_capacity discharge_efficiency
     initial_level : ℚ) :
    (b.add_storage_constraints efficiency min_capacity
        discharge_energy_capacity discharge_efficiency
        initial_level).prob.constraints
      = (b.prob.constraints
          ++ storageLowerCons efficiency min_capacity discharge_efficiency
              initial_level b.prob.time_horizon
          ++ storageUpperCons efficiency discharge_energy_capacity
              discharge_efficiency initial_level b.prob.time_horizon)
    ∧ ∀ c d : Nat → ℚ,
        ((∀ con ∈ storageLowerCons efficiency min_capacity
            discharge_efficiency initial_level b.prob.time_horizon
          ++ storageUpperCons efficiency discharge_energy_capacity
            discharge_efficiency initial_level b.prob.time_horizon,
          con.sat c d)
        ↔ ∀ k, 1 ≤ k → k ≤ b.prob.time_horizon →
            min_capacity ≤ initial_level + ∑ i in Finset.range k,
              (c i * efficiency - d i * discharge_efficiency)
            ∧ initial_level + ∑ i in Finset.range k,
              (c i * efficiency - d i * discharge_efficiency)
              ≤ discharge_energy_capacity) := by
  constructor
  · rw [add_storage_constraints_eq]
  · intro c d
    constructor
    · intro hsat k hk1 hkH
      have hmem1 : LinConstraint.ge
          (storageExpr efficiency discharge_efficiency initial_level k)
          min_capacity
          ∈ storageLowerCons efficiency min_capacity discharge_efficiency
              initial_level b.prob.time_horizon := by
        exact List.mem_map.mpr ⟨k - 1, List.mem_range.mpr (by omega),
          by rw [Nat.sub_add_cancel hk1]⟩
      have hmem2 : LinConstraint.le
          (storageExpr efficiency discharge_efficiency initial_level k)
          discharge_energy_capacity
          ∈ storageUpperCons efficiency discharge_energy_capacity
              discharge_efficiency initial_level b.prob.time_horizon := by
        exact List.mem_map.mpr ⟨k - 1, List.mem_range.mpr (by omega),
          by rw [Nat.sub_add_cancel hk1]⟩
      have h1 := hsat _ (List.mem_append.mpr (Or.inl hmem1))
      have h2 := hsat _ (List.mem_append.mpr (Or.inr hmem2))
      simp only [LinConstraint.sat] at h1 h2
      rw [eval_storageExpr] at h1 h2
      exact ⟨h1, h2⟩
    · intro hb con hcon
      rcases List.mem_append.mp hcon with hlo | hhi
      · obtain ⟨j, hj, rfl⟩ := List.mem_map.mp hlo
        have hj' := List.mem_range.mp hj
        show min_capacity ≤ _
        rw [eval_storageExpr]
        exact (hb (j + 1) (by omega) (by omega)).1
      · obtain ⟨j, hj, rfl⟩ := List.mem_map.mp hhi
        have hj' := List.mem_range.mp hj
        show _ ≤ discharge_energy_capacity
        rw [eval_storageExpr]
        exact (hb (j + 1) (by omega) (by omega)).2

/-- Witness for C1: on a two-hour model with efficiencies 1, capacity
window `[0, 10]` and initial level 3, the assignment charging 1 in every
hour satisfies the added constraints, so the cumulative state of energy
stays within the window at both hours; here evaluated at hour 2. -/
theorem c1_storage_prefix_bounds_witness :
    (0 : ℚ) ≤ 3 + ∑ i in Finset.range 2,
        ((fun _ => (1 : ℚ)) i * 1 - (fun _ => (0 : ℚ)) i * 1)
    ∧ 3 + ∑ i in Finset.range 2,
        ((fun _ => (1 : ℚ)) i * 1 - (fun _ => (0 : ℚ)) i * 1) ≤ 10 :=
  ((c1_storage_prefix_bounds (Battery.init 2 5 5) 1 0 10 1 3).2
      (fun _ => 1) (fun _ => 0)).mp
    (of_decide_eq_true (by with_unfolding_all rfl)) 2 (by omega) (Nat.le_refl 2)

/-- C6. `set_objective(prices)` raises the shape error exactly when
`len(prices)` differs from the declared horizon — and it does so before
touching the model and before any solve (the returned model is unchanged
except for the attached objective, and no solver is involved); when the
lengths match it attaches the objective and raises nothing. -/
theorem c6_set_objective_shape_check (b : Battery) (prices : List ℚ) :
    (prices.length ≠ b.prob.time_horizon
      ↔ b.set_objective prices = .error inputShapeMsg)
    ∧ (prices.length = b.prob.time_horizon →
        b.set_objective prices = .ok { b with prob :=
          { b.prob with objective := mkObjective prices b.prob.time_horizon } }) := by
  unfold Battery.set_objective
  by_cases h : prices.length = b.prob.time_horizon
  · rw [if_pos h]
    exact ⟨⟨fun hne => (hne h).elim, fun he => by cases he⟩, fun _ => rfl⟩
  · rw [if_neg h]
    exact ⟨⟨fun _ => rfl, fun _ => h⟩, fun he => (h he).elim⟩

/-- Witness for C6: on a two-hour model, a one-price series raises the
shape error and a two-price series attaches the objective. -/
theorem c6_set_objective_shape_check_witness :
    (Battery.init 2 5 5).set_objective [3] = .error inputShapeMsg
    ∧ (Battery.init 2 5 5).set_objective [3, 4]
        = .ok { Battery.init 2 5 5 with prob :=
            { (Battery.init 2 5 5).prob with objective := mkObjective [3, 4] 2 } } :=
  ⟨(c6_set_objective_shape_check (Battery.init 2 5 5) [3]).1.mp (by decide),
   (c6_set_objective_shape_check (Battery.init 2 5 5) [3, 4]).2 (by decide)⟩

/-- C7. `solve_model` never raises: it is a total operation that stores
whatever the solver reports and returns its diagnostics, printing a single
warning exactly when the status differs from `Optimal`; an infeasible
construction `min_capacity > discharge_energy_capacity` can never come
back `Optimal` from a sound solver (on a nonempty horizon the prefix-1
storage pair forces `min_capacity ≤ discharge_energy_capacity` on any
feasible point); and the simulation driver carries on with the bound
values rather than aborting when the status is not `Optimal`. -/
theorem c7_solve_status_policy :
    (∀ (b : Battery) (s : Solver),
      ((b.solve_model s).1.status = .Optimal → (b.solve_model s).2 = [])
      ∧ ((b.solve_model s).1.status ≠ .Optimal →
          (b.solve_model s).2
            = ["Warning: " ++ (b.solve_model s).1.status.name]))
    ∧ (∀ (s : Solver) (b : Battery)
        (efficiency min_capacity discharge_energy_capacity
         discharge_efficiency initial_level : ℚ),
        s.Sound → discharge_energy_capacity < min_capacity →
        1 ≤ b.prob.time_horizon →
        ((b.add_storage_constraints efficiency min_capacity
            discharge_energy_capacity discharge_efficiency
            initial_level).solve_model s).1.status ≠ .Optimal)
    ∧ (simulate_battery warnSolver 0 day1Prices 5 5 10 1 1 100 24 (0 : Nat)
          0).toOption.map (fun o => o.2.2.2) = some [0] := by
  refine ⟨?_, ?_, ?_⟩
  · intro b s
    by_cases hst : (s.run b.prob).2.2 = .Optimal
    · constructor
      · intro _
        show (if (s.run b.prob).2.2 = .Optimal then _ else _) = _
        rw [if_pos hst]
      · intro hne
        exact absurd hst hne
    · constructor
      · intro heq
        exact absurd heq hst
      · intro _
        show (if (s.run b.prob).2.2 = .Optimal then _ else _) = _
        rw [if_neg hst]
        rfl
  · intro s b efficiency min_capacity discharge_energy_capacity
      discharge_efficiency initial_level hs hlt hH hopt
    have hrun := hs ((b.add_storage_constraints efficiency min_capacity
      discharge_energy_capacity discharge_efficiency
      initial_level).prob) hopt
    obtain ⟨-, hbounds, hsat⟩ := hrun
    rw [add_storage_constraints_eq] at hsat
    have hmlo : LinConstraint.ge
        (storageExpr efficiency discharge_efficiency initial_level 1)
        min_capacity
        ∈ (b.prob.constraints
            ++ storageLowerCons efficiency min_capacity discharge_efficiency
                initial_level b.prob.time_horizon
            ++ storageUpperCons efficiency discharge_energy_capacity
                discharge_efficiency initial_level b.prob.time_horizon) := by
      refine List.mem_append.mpr (Or.inl (List.mem_append.mpr (Or.inr ?_)))
      exact List.mem_map.mpr ⟨0, List.mem_range.mpr (by omega), rfl⟩
    have hmhi : LinConstraint.le
        (storageExpr efficiency discharge_efficiency initial_level 1)
        discharge_energy_capacity
        ∈ (b.prob.constraints
            ++ storageLowerCons efficiency min_capacity discharge_efficiency
                initial_level b.prob.time_horizon
            ++ storageUpperCons efficiency discharge_energy_capacity
                discharge_efficiency initial_level b.prob.time_horizon) := by
      refine List.mem_append.mpr (Or.inr ?_)
      exact List.mem_map.mpr ⟨0, List.mem_range.mpr (by omega), rfl⟩
    have h1 := hsat _ hmlo
    have h2 := hsat _ hmhi
    simp only [LinConstraint.sat] at h1 h2
    linarith
  · exact of_decide_eq_true (by with_unfolding_all rfl)

/-- Witness for C7: the always-`Infeasible` warn-only solver is sound, and
on a one-hour model with `min_capacity = 5 > 2 = discharge_energy_capacity`
the solve comes back non-`Optimal`; the same solve's diagnostics are the
single infeasibility warning. -/
theorem c7_solve_status_policy_witness :
    (((Battery.init 1 5 5).add_storage_constraints 1 5 2 1
        0).solve_model warnSolver).1.status ≠ .Optimal
    ∧ ((Battery.init 24 5 5).solve_model warnSolver).2
        = ["Warning: "
            ++ ((Battery.init 24 5 5).solve_model warnSolver).1.status.name] :=
  ⟨c7_solve_status_policy.2.1 warnSolver (Battery.init 1 5 5) 1 5 2 1 0
      (fun _ h => LpStatus.noConfusion h) (by norm_num) (Nat.le_refl 1),
   (c7_solve_status_policy.1 (Battery.init 24 5 5) warnSolver).2
      (fun h => LpStatus.noConfusion h)⟩

/-- C8. On a freshly constructed model, `set_objective(prices)` attaches
the maximization objective `Σ_i prices[i]·(discharge[i] − charge[i])` and
does nothing else: the constraint set stays empty, the horizon, the
variable bounds, the variable bindings and the status are untouched; and
the variable bounds recorded at construction force
`0 ≤ charge[i] ≤ maxChargePower` and `0 ≤ discharge[i] ≤ maxDischargePower`
on every feasible assignment. -/
theorem c8_objective_formula (time_horizon : Nat) (mdpc mcpc : ℚ)
    (prices : List ℚ) (h : prices.length = time_horizon) (b' : Battery)
    (hb : (Battery.init time_horizon mdpc mcpc).set_objective prices = .ok b') :
    (∀ c d : Nat → ℚ, b'.prob.objective.eval c d
        = ∑ i in Finset.range time_horizon, prices.getD i 0 * (d i - c i))
    ∧ b'.prob.sense = .Maximize
    ∧ b'.prob.constraints = []
    ∧ b'.prob.time_horizon = time_horizon
    ∧ b'.prob.max_charge_power_capacity = mcpc
    ∧ b'.prob.max_discharge_power_capacity = mdpc
    ∧ b'.chargeVal = (Battery.init time_horizon mdpc mcpc).chargeVal
    ∧ b'.dischargeVal = (Battery.init time_horizon mdpc mcpc).dischargeVal
    ∧ b'.status = .NotSolved
    ∧ (∀ c d : Nat → ℚ, b'.feasible c d → ∀ i < time_horizon,
        0 ≤ c i ∧ c i ≤ mcpc ∧ 0 ≤ d i ∧ d i ≤ mdpc) := by
  unfold Battery.set_objective at hb
  rw [if_pos (show prices.length
    = (Battery.init time_horizon mdpc mcpc).prob.time_horizon from h)] at hb
  cases hb
  refine ⟨fun c d => eval_mkObjective prices time_horizon c d,
    rfl, rfl, rfl, rfl, rfl, rfl, rfl, rfl, ?_⟩
  intro c d hf i hi
  exact hf.1 i hi

/-- Witness for C8: a two-hour model with prices `[3, 4]`; the attached
objective evaluates to `3·(2−1) + 4·(2−1) = 7` on the all-1 charge /
all-2 discharge assignment, and that assignment is feasible with the
recorded bounds at hour 0. -/
theorem c8_objective_formula_witness :
    demoObjBat.prob.objective.eval (fun _ => 1) (fun _ => 2)
      = ∑ i in Finset.range 2, (([3, 4] : List ℚ).getD i 0)
          * ((fun _ => (2 : ℚ)) i - (fun _ => (1 : ℚ)) i)
    ∧ demoObjBat.prob.constraints = []
    ∧ (0 ≤ (fun _ => (1 : ℚ)) 0 ∧ (fun _ => (1 : ℚ)) 0 ≤ 5
        ∧ 0 ≤ (fun _ => (2 : ℚ)) 0 ∧ (fun _ => (2 : ℚ)) 0 ≤ 5) := by
  have h := c8_objective_formula 2 5 5 [3, 4] rfl demoObjBat rfl
  exact ⟨h.1 (fun _ => 1) (fun _ => 2), h.2.2.1,
    h.2.2.2.2.2.2.2.2.2 (fun _ => 1) (fun _ => 2)
      (of_decide_eq_true (by with_unfolding_all rfl)) 0 (by omega)⟩

/-- C9 counterexample. `collect_output` on a freshly built, never-solved
24-hour model does not fail at all: it silently returns the 24 unbound
(`None`) charge and discharge values, contradicting the claim that it
raises an `UnsolvedModelError` before a solve. -/
theorem c9_counterexample :
    (Battery.init 24 5 5).collect_output
      = .ok (List.replicate 24 none, List.replicate 24 none) := by decide

/-- C9 amended. On any horizon of at least 24 hours, `collect_output`
called before any solve raises nothing and returns the unbound variable
values — 24 `None`s for charge and 24 for discharge. -/
theorem c9_collect_before_solve (time_horizon : Nat) (mdpc mcpc : ℚ)
    (h : 24 ≤ time_horizon) :
    (Battery.init time_horizon mdpc mcpc).collect_output
      = .ok (List.replicate 24 none, List.replicate 24 none) := by
  unfold Battery.collect_output
  rw [if_pos (show (24 : Nat)
    ≤ (Battery.init time_horizon mdpc mcpc).prob.time_horizon from h)]
  have hmap : (List.range 24).map (fun _ => (none : Option ℚ))
      = List.replicate 24 none := by decide
  show Except.ok ((List.range 24).map (fun _ => none),
    (List.range 24).map (fun _ => none)) = _
  rw [hmap]

/-- Witness for C9: the amended statement evaluated on a never-solved
25-hour model. -/
theorem c9_collect_before_solve_witness :
    (Battery.init 25 1 1).collect_output
      = .ok (List.replicate 24 none, List.replicate 24 none) :=
  c9_collect_before_solve 25 1 1 (by omega)

/-- C10. The outputs of `simulate_battery` are independent of `start_day`:
two invocations that differ only in `start_day` — even in its type —
return identical output sequences, because the parameter is accepted but
never read. -/
theorem c10_start_day_ignored {T S : Type} (s : Solver) (initial_level : ℚ)
    (price_data : List ℚ)
    (max_discharge_power_capacity max_charge_power_capacity
     discharge_energy_capacity efficiency discharge_efficiency
     max_daily_discharged_throughput : ℚ) (time_horizon : Nat)
    (sd1 : T) (sd2 : S) (min_capacity : ℚ) :
    simulate_battery s initial_level price_data max_discharge_power_capacity
        max_charge_power_capacity discharge_energy_capacity efficiency
        discharge_efficiency max_daily_discharged_throughput time_horizon
        sd1 min_capacity
      = simulate_battery s initial_level price_data
          max_discharge_power_capacity max_charge_power_capacity
          discharge_energy_capacity efficiency discharge_efficiency
          max_daily_discharged_throughput time_horizon sd2 min_capacity := rfl

/-- C2 amended, per-period part. Every successful loop iteration appends
exactly this period's hourly series, the appended state-of-energy block is
`initial_level` plus the cumulative sum of the per-hour net deltas
`charge·efficiency − discharge·discharge_efficiency` (end-of-hour
convention), the period throughput is the sum of the period's discharges,
and `initial_level` is mutated exactly once, at period end, to the last
element of this period's trajectory. -/
theorem c2_trajectory_per_period (s : Solver) (price_data : List ℚ)
    (discharge_energy_capacity efficiency discharge_efficiency
     max_daily_discharged_throughput min_capacity : ℚ)
    (st st' : SimState) (day_count : Nat)
    (h : simDay s price_data discharge_energy_capacity efficiency
      discharge_efficiency max_daily_discharged_throughput min_capacity
      st day_count = .ok st') :
    st'.all_hourly_charges.take st.all_hourly_charges.length
      = st.all_hourly_charges
    ∧ st'.all_hourly_charges.length = st.all_hourly_charges.length + 24
    ∧ st'.all_hourly_discharges.take st.all_hourly_discharges.length
      = st.all_hourly_discharges
    ∧ st'.all_hourly_discharges.length = st.all_hourly_discharges.length + 24
    ∧ st'.all_hourly_state_of_energy = st.all_hourly_state_of_energy ++
        (cumsum (List.zipWith
          (fun cv dv => cv * efficiency - dv * discharge_efficiency)
          (st'.all_hourly_charges.drop st.all_hourly_charges.length)
          (st'.all_hourly_discharges.drop st.all_hourly_discharges.length))).map
          (fun x => st.initial_level + x)
    ∧ st'.all_daily_discharge_throughput = st.all_daily_discharge_throughput
        ++ [(st'.all_hourly_discharges.drop
              st.all_hourly_discharges.length).sum]
    ∧ st'.initial_level =
        ((cumsum (List.zipWith
          (fun cv dv => cv * efficiency - dv * discharge_efficiency)
          (st'.all_hourly_charges.drop st.all_hourly_charges.length)
          (st'.all_hourly_discharges.drop st.all_hourly_discharges.length))).map
          (fun x => st.initial_level + x)).getLastD 0 := by
  obtain ⟨hc, hd, hlc, hld, hchg, hdis, hsoe, hthr, hlvl⟩ :=
    simDay_ok_spec s price_data discharge_energy_capacity efficiency
      discharge_efficiency max_daily_discharged_throughput min_capacity
      st st' day_count h
  have hdc : st'.all_hourly_charges.drop st.all_hourly_charges.length = hc := by
    rw [hchg, List.drop_left]
  have hdd : st'.all_hourly_discharges.drop st.all_hourly_discharges.length
      = hd := by
    rw [hdis, List.drop_left]
  refine ⟨by rw [hchg, List.take_left], by rw [hchg]; simp [hlc],
    by rw [hdis, List.take_left], by rw [hdis]; simp [hld],
    by rw [hdc, hdd]; exact hsoe,
    by rw [hdd]; exact hthr,
    by rw [hdc, hdd]; exact hlvl⟩

/-- Witness for C2's amended per-period statement: the first period of the
two-day demonstration run. -/
theorem c2_trajectory_per_period_witness :
    demoSt1.all_hourly_charges.length
      = (initState 24 5 5 0).all_hourly_charges.length + 24
    ∧ demoSt1.all_hourly_state_of_energy
      = (initState 24 5 5 0).all_hourly_state_of_energy ++
        (cumsum (List.zipWith (fun cv dv => cv * 1 - dv * 1)
          (demoSt1.all_hourly_charges.drop
            (initState 24 5 5 0).all_hourly_charges.length)
          (demoSt1.all_hourly_discharges.drop
            (initState 24 5 5 0).all_hourly_discharges.length))).map
          (fun x => (initState 24 5 5 0).initial_level + x)
    ∧ demoSt1.initial_level =
        ((cumsum (List.zipWith (fun cv dv => cv * 1 - dv * 1)
          (demoSt1.all_hourly_charges.drop
            (initState 24 5 5 0).all_hourly_charges.length)
          (demoSt1.all_hourly_discharges.drop
            (initState 24 5 5 0).all_hourly_discharges.length))).map
          (fun x => (initState 24 5 5 0).initial_level + x)).getLastD 0 := by
  have h := c2_trajectory_per_period demoSolver twoDayPrices 10 1 1 100 0
    (initState 24 5 5 0) demoSt1 0 (by with_unfolding_all rfl)
  exact ⟨h.2.1, h.2.2.2.2.1, h.2.2.2.2.2.2⟩

/-- C2 counterexample, chaining part. In the two-period demonstration run
the second period's state-of-energy trajectory is flat at 10 — the shared
model still carries the first period's storage constraints built from the
seed level 0, which pin every prefix sum to 0 — while the one-period run
seeded with period 1's final level 10 discharges immediately and stays at
5, so the claimed chaining equality fails. -/
theorem c2_chaining_counterexample :
    (simulate_battery_days 2 demoSolver 0 twoDayPrices 5 5 10 1 1 100 24
        (0 : Nat) 0).toOption.map (fun o => o.2.2.1.drop 24)
      = some (List.replicate 24 (10 : ℚ))
    ∧ (simulate_battery demoSolver 10 day2Prices 5 5 10 1 1 100 24
        (0 : Nat) 0).toOption.map (fun o => o.2.2.1)
      = some (List.replicate 24 (5 : ℚ))
    ∧ List.replicate 24 (10 : ℚ) ≠ List.replicate 24 (5 : ℚ) :=
  of_decide_eq_true (by with_unfolding_all rfl)

/-- C3 counterexample. On a 25-hour model — within the code's stated
"horizon at least 24" assumption — `collect_output` returns series of
length 24, not 25: the extraction loop is hardcoded to `range(0, 24)`. -/
theorem c3_counterexample :
    ((Battery.init 25 5 5).collect_output.toOption.map
        (fun pr => (pr.1.length, pr.2.length))) = some (24, 24)
    ∧ ((24 : Nat), (24 : Nat)) ≠ ((25 : Nat), (25 : Nat)) := by decide

/-- C3 amended. `collect_output` always returns exactly 24 charge and 24
discharge values whenever it succeeds (it equals the horizon only when the
horizon is 24), and accordingly a successful `simulate_battery` returns
hourly series of length `24 × 1` and one throughput entry. -/
theorem c3_output_lengths :
    (∀ b : Battery, 24 ≤ b.prob.time_horizon →
      b.collect_output.toOption.map (fun pr => (pr.1.length, pr.2.length))
        = some (24, 24))
    ∧ (∀ (T : Type) (s : Solver) (initial_level : ℚ) (price_data : List ℚ)
        (max_discharge_power_capacity max_charge_power_capacity
         discharge_energy_capacity efficiency discharge_efficiency
         max_daily_discharged_throughput : ℚ) (time_horizon : Nat) (sd : T)
        (min_capacity : ℚ) (out : List ℚ × List ℚ × List ℚ × List ℚ),
        simulate_battery s initial_level price_data
          max_discharge_power_capacity max_charge_power_capacity
          discharge_energy_capacity efficiency discharge_efficiency
          max_daily_discharged_throughput time_horizon sd min_capacity
          = .ok out →
        out.1.length = 24 ∧ out.2.1.length = 24 ∧ out.2.2.1.length = 24
          ∧ out.2.2.2.length = 1) := by
  constructor
  · intro b hb
    unfold Battery.collect_output
    rw [if_pos hb]
    show some (((List.range 24).map b.chargeVal).length,
      ((List.range 24).map b.dischargeVal).length) = some (24, 24)
    rw [List.length_map, List.length_map, List.length_range]
  · intro T s initial_level price_data mdpc mcpc dec eff deff thr H sd mcap
      out h
    unfold simulate_battery simulate_battery_days at h
    rw [simLoop_one] at h
    cases hsd : simDay s price_data dec eff deff thr mcap
        (initState H mdpc mcpc initial_level) 0 with
    | error e =>
        rw [hsd] at h
        cases h
    | ok st =>
        rw [hsd] at h
        cases h
        obtain ⟨hc, hd, hlc, hld, hchg, hdis, hsoe, hthr, hlvl⟩ :=
          simDay_ok_spec s price_data dec eff deff thr mcap
            (initState H mdpc mcpc initial_level) st 0 hsd
        refine ⟨?_, ?_, ?_, ?_⟩
        · show st.all_hourly_charges.length = 24
          rw [hchg]
          simp [hlc, initState]
        · show st.all_hourly_discharges.length = 24
          rw [hdis]
          simp [hld, initState]
        · show st.all_hourly_state_of_energy.length = 24
          rw [hsoe]
          simp [initState, cumsum_length, List.length_zipWith, hlc, hld]
        · show st.all_daily_discharge_throughput.length = 1
          rw [hthr]
          simp [initState]

/-- Witness for C3's amended statement: a never-solved 24-hour model, and
the concrete one-period demonstration run seeded with 10. -/
theorem c3_output_lengths_witness :
    (Battery.init 24 5 5).collect_output.toOption.map
        (fun pr => (pr.1.length, pr.2.length)) = some (24, 24)
    ∧ (demoStB.all_hourly_charges.length = 24
        ∧ demoStB.all_hourly_discharges.length = 24
        ∧ demoStB.all_hourly_state_of_energy.length = 24
        ∧ demoStB.all_daily_discharge_throughput.length = 1) :=
  ⟨c3_output_lengths.1 (Battery.init 24 5 5) (by decide),
   c3_output_lengths.2 Nat demoSolver 10 day2Prices 5 5 10 1 1 100 24 0 0
     (demoStB.all_hourly_charges, demoStB.all_hourly_discharges,
       demoStB.all_hourly_state_of_energy,
       demoStB.all_daily_discharge_throughput)
     (by with_unfolding_all rfl)⟩

/-- C4. After a second loop iteration the single shared `Battery` still
carries the first period's storage constraints: the model solved for
period 2 contains both the prefix-1 storage constraint built from the seed
level 0 and the one built from the current level 10 (= period 1's final
state of energy, ≠ 0), 98 constraints in all — twice the 48 storage
constraints plus two copies of the throughput constraint — instead of a
fresh model's 49. -/
theorem c4_stale_constraints_remain :
    (simLoop demoSolver 0 twoDayPrices 5 5 10 1 1 100 24 0 2).toOption.map
        (fun st => st.battery.prob) = some demoSt2.battery.prob
    ∧ demoSt2.battery.prob.constraints.length = 98
    ∧ LinConstraint.ge (storageExpr 1 1 0 1) 0
        ∈ demoSt2.battery.prob.constraints
    ∧ LinConstraint.ge (storageExpr 1 1 10 1) 0
        ∈ demoSt2.battery.prob.constraints
    ∧ demoSt1.initial_level = 10 ∧ (0 : ℚ) ≠ 10
    ∧ (simLoop demoSolver 10 day2Prices 5 5 10 1 1 100 24 0 1).toOption.map
        (fun st => st.battery.prob.constraints.length) = some 49 :=
  of_decide_eq_true (by with_unfolding_all rfl)

/-- C5. `simulate_battery` is hardcoded to a single loop iteration: fed a
price table holding two 24-hour windows, it still performs exactly one
optimization and returns one period's outputs — 24 hourly entries and one
throughput entry, not two periods' worth. -/
theorem c5_single_period_only :
    twoDayPrices.length = 2 * 24
    ∧ (simulate_battery demoSolver 0 twoDayPrices 5 5 10 1 1 100 24
        (0 : Nat) 0).toOption.map
        (fun o => (o.1.length, o.2.1.length, o.2.2.1.length, o.2.2.2.length))
      = some (24, 24, 24, 1) :=
  of_decide_eq_true (by with_unfolding_all rfl)

/-! ### Optimality of the demonstration solver's answers

The deterministic `demoSolver` used in the demonstration runs returns, for
each of the three models it is shown, an answer that is feasible and
profit-optimal for that model — so the chaining failure exhibited above is
forced by the stale constraints, not an artifact of a capricious oracle. -/

/-- The day-1 answer (charge 5 in hours 22 and 23) is feasible for the
period-1 model and earns profit 10. -/
theorem demoDay1_solution_optimal_value :
    demoSt1.battery.feasible
      (fun i => if i = 22 ∨ i = 23 then 5 else 0) (fun _ => 0)
    ∧ demoSt1.battery.prob.objective.eval
      (fun i => if i = 22 ∨ i = 23 then 5 else 0) (fun _ => 0) = 10 :=
  of_decide_eq_true (by with_unfolding_all rfl)

/-- No feasible point of the period-1 model earns more than 10: the only
non-zero prices are the `−1` at hours 22 and 23, so profit is
`c₂₂ + c₂₃ − d₂₂ − d₂₃ ≤ 5 + 5`. -/
theorem demoDay1_profit_bound (c d : Nat → ℚ)
    (h : demoSt1.battery.feasible c d) :
    demoSt1.battery.prob.objective.eval c d ≤ 10 := by
  have hobj : demoSt1.battery.prob.objective = mkObjective day1Prices 24 :=
    of_decide_eq_true (by with_unfolding_all rfl)
  have hH : demoSt1.battery.prob.time_horizon = 24 :=
    of_decide_eq_true (by with_unfolding_all rfl)
  have hmc : demoSt1.battery.prob.max_charge_power_capacity = 5 :=
    of_decide_eq_true (by with_unfolding_all rfl)
  obtain ⟨hbounds, -⟩ := h
  rw [hH, hmc] at hbounds
  have h22 := hbounds 22 (by omega)
  have h23 := hbounds 23 (by omega)
  rw [hobj, eval_mkObjective]
  simp only [Finset.sum_range_succ, Finset.sum_range_zero, day1Prices,
    List.getD, List.getElem?_cons_zero, List.getElem?_cons_succ]
  norm_num
  linarith [h22.1, h22.2.1, h22.2.2.1, h23.1, h23.2.1, h23.2.2.1]

/-- The all-zero answer is feasible for the accumulated period-2 model and
earns profit 0. -/
theorem demoAccum_solution_optimal_value :
    demoSt2.battery.feasible (fun _ => 0) (fun _ => 0)
    ∧ demoSt2.battery.prob.objective.eval (fun _ => 0) (fun _ => 0) = 0 :=
  of_decide_eq_true (by with_unfolding_all rfl)

/-- No feasible point of the accumulated period-2 model earns a positive
profit: the stale prefix-1 storage constraint from seed level 0 forces
`d₀ ≤ c₀`, and the only non-zero price is the 50 at hour 0, so profit is
`50·(d₀ − c₀) ≤ 0`. -/
theorem demoAccum_profit_bound (c d : Nat → ℚ)
    (h : demoSt2.battery.feasible c d) :
    demoSt2.battery.prob.objective.eval c d ≤ 0 := by
  have hobj : demoSt2.battery.prob.objective = mkObjective day2Prices 24 :=
    of_decide_eq_true (by with_unfolding_all rfl)
  have hstale : LinConstraint.ge (storageExpr 1 1 0 1) 0
      ∈ demoSt2.battery.prob.constraints :=
    of_decide_eq_true (by with_unfolding_all rfl)
  have hsat := h.2 _ hstale
  simp only [LinConstraint.sat] at hsat
  rw [eval_storageExpr] at hsat
  simp only [Finset.sum_range_one] at hsat
  rw [hobj, eval_mkObjective]
  simp only [Finset.sum_range_succ, Finset.sum_range_zero, day2Prices,
    List.getD, List.getElem?_cons_zero, List.getElem?_cons_succ]
  norm_num
  linarith

/-- The fresh-model answer (discharge 5 at hour 0) is feasible for the
fresh period-2 model seeded with level 10 and earns profit 250. -/
theorem demoFresh_solution_optimal_value :
    demoStB.battery.feasible (fun _ => 0) (fun i => if i = 0 then 5 else 0)
    ∧ demoStB.battery.prob.objective.eval
      (fun _ => 0) (fun i => if i = 0 then 5 else 0) = 250 :=
  of_decide_eq_true (by with_unfolding_all rfl)

/-- No feasible point of the fresh period-2 model earns more than 250:
profit is `50·(d₀ − c₀) ≤ 50·5`. -/
theorem demoFresh_profit_bound (c d : Nat → ℚ)
    (h : demoStB.battery.feasible c d) :
    demoStB.battery.prob.objective.eval c d ≤ 250 := by
  have hobj : demoStB.battery.prob.objective = mkObjective day2Prices 24 :=
    of_decide_eq_true (by with_unfolding_all rfl)
  have hH : demoStB.battery.prob.time_horizon = 24 :=
    of_decide_eq_true (by with_unfolding_all rfl)
  have hmd : demoStB.battery.prob.max_discharge_power_capacity = 5 :=
    of_decide_eq_true (by with_unfolding_all rfl)
  obtain ⟨hbounds, -⟩ := h
  rw [hH, hmd] at hbounds
  have h0 := hbounds 0 (by omega)
  rw [hobj, eval_mkObjective]
  simp only [Finset.sum_range_succ, Finset.sum_range_zero, day2Prices,
    List.getD, List.getElem?_cons_zero, List.getElem?_cons_succ]
  norm_num
  linarith [h0.1, h0.2.2.2]

/-- The fresh-model optimum is infeasible for the accumulated period-2
model: it violates the stale constraints, so no sound solver can return it
there — the chaining failure is forced. -/
theorem demoAccum_excludes_fresh_optimum :
    ¬ demoSt2.battery.feasible
      (fun _ => 0) (fun i => if i = 0 then 5 else 0) :=
  of_decide_eq_true (by with_unfolding_all rfl)

/-- The first half of the chaining property does hold on the demonstration
inputs: period 1 of the two-period run and the one-period run on the same
seed and prices produce the same state-of-energy trajectory. -/
theorem demo_period1_chaining_agrees :
    (simulate_battery_days 2 demoSolver 0 twoDayPrices 5 5 10 1 1 100 24
        (0 : Nat) 0).toOption.map (fun o => o.2.2.1.take 24)
      = (simulate_battery demoSolver 0 twoDayPrices 5 5 10 1 1 100 24
          (0 : Nat) 0).toOption.map (fun o => o.2.2.1) :=
  of_decide_eq_true (by with_unfolding_all rfl)

end EnergyArbitrage
